import Mathlib

/-!
Verification of the document-batch analysis and synthesis orchestrator of the
forensic-report backend.  Python strings are embedded as `List Char`; the
Python string primitives used by the source (`in`, `find`, `split`, `strip`,
`lower`, `replace(.., 1)`, `str.isdigit` filtering, `int`) are modelled as
executable list functions below.  The orchestration functions
(`extract_retry_delay`, the retry loops of `GeminiModel.predict`,
`GeminiHandler.query_with_batch`, `GeminiHandler.create_unified_analysis`,
`InferenceService.query_with_batch` / `create_unified_analysis`, the prompt
resolution of both copies, `process_documents_in_batches`,
`extract_findings_and_background`, `parse_background_response` and
`parse_text_to_json`) are translated from the repository source.
-/

namespace Forensic

deriving instance DecidableEq for Except

/-- Python `str` whitespace characters relevant to `strip()`. -/
def wsChar (c : Char) : Bool :=
  c == ' ' || c == '\t' || c == '\n' || c == '\r' || c == '\x0b' || c == '\x0c'

/-- `pyStartsWith pat s` models Python `s.startswith(pat)`. -/
def pyStartsWith : List Char → List Char → Bool
  | [], _ => true
  | _ :: _, [] => false
  | p :: ps, c :: cs => if p = c then pyStartsWith ps cs else false

/-- `pyFind pat s` models Python `s.find(pat)` (`none` for `-1`):
the least index at which `pat` occurs in `s`. -/
def pyFind (pat : List Char) : List Char → Option Nat
  | [] => if pyStartsWith pat [] then some 0 else none
  | c :: t =>
    if pyStartsWith pat (c :: t) then some 0
    else (pyFind pat t).map (· + 1)

/-- `pyContains s pat` models Python `pat in s` (substring test). -/
def pyContains (s pat : List Char) : Bool :=
  (pyFind pat s).isSome

/-- Python `s.lower()` (ASCII case folding suffices for the source's uses). -/
def pyLower (s : List Char) : List Char :=
  s.map Char.toLower

/-- Python `s.strip()`: remove leading and trailing whitespace. -/
def pyStrip (s : List Char) : List Char :=
  ((s.dropWhile wsChar).reverse.dropWhile wsChar).reverse

/-- Python slice `s[a:b]`. -/
def pySlice (s : List Char) (a b : Nat) : List Char :=
  (s.drop a).take (b - a)

/-- Python `s.replace(pat, sub, 1)`: replace the leftmost occurrence only. -/
def pyReplaceFirst (pat sub s : List Char) : List Char :=
  match pyFind pat s with
  | none => s
  | some i => s.take i ++ sub ++ s.drop (i + pat.length)

/-- Helper for `pySplit`, structurally recursive on fuel
(`s.length + 1` fuel always suffices for a non-empty separator). -/
def pySplitAux (sep : List Char) : Nat → List Char → List (List Char)
  | 0, s => [s]
  | fuel + 1, s =>
    match pyFind sep s with
    | none => [s]
    | some i => s.take i :: pySplitAux sep fuel (s.drop (i + sep.length))

/-- Python `s.split(sep)` for a non-empty separator. -/
def pySplit (sep s : List Char) : List (List Char) :=
  pySplitAux sep (s.length + 1) s

/-- The head character exists and is not whitespace (used to show `strip`
preserves header prefixes). -/
def headNonWs (pat : List Char) : Bool :=
  match pat with
  | [] => false
  | c :: _ => !wsChar c

/-- Value of a non-empty decimal digit string, as computed by Python `int`. -/
def digitsToNat (ds : List Char) : Nat :=
  ds.foldl (fun n c => n * 10 + (c.toNat - 48)) 0

/-! ## Document Batcher

`InferenceService.process_documents_in_batches` (src/inference/service.py:349)
and `GeminiHandler.process_documents_in_batches`
(src/controller/gemini_case_handler.py:564) both build batches as
`[all_content[i:i + max_batch_size] for i in range(0, len(all_content), max_batch_size)]`.
The contiguous-slice comprehension is embedded as chunking; the fuel argument
(`l.length` suffices when `max_batch_size ≥ 1`; Python raises `ValueError` for
step 0, which the claims exclude) makes the recursion structural. -/

/-- Chunking helper: repeatedly take `m` elements from the front. -/
def chunkAux (m : Nat) : Nat → List α → List (List α)
  | _, [] => []
  | 0, _ :: _ => []
  | fuel + 1, x :: xs => ((x :: xs).take m) :: chunkAux m fuel ((x :: xs).drop m)

/-- The batching step of `process_documents_in_batches`: contiguous slices of
size `maxBatchSize`, last slice possibly shorter. -/
def process_documents_in_batches (allContent : List α) (maxBatchSize : Nat) :
    List (List α) :=
  chunkAux maxBatchSize allContent.length allContent


/-! ## Rate-limit classification and `extract_retry_delay`

Translated from src/inference/models/gemini_model.py:17-55 (identical copy at
src/controller/gemini_case_handler.py:36-74). -/

/-- The rate-limit-class test of the retry loops
(gemini_model.py:153, gemini_case_handler.py:774):
`"429" in e or "rate limit" in e.lower() or "quota" in e.lower()`. -/
def rateLimitClass (m : List Char) : Bool :=
  pyContains m ("429".toList) || pyContains (pyLower m) ("rate limit".toList) ||
    pyContains (pyLower m) ("quota".toList)

/-- `extract_retry_delay(error_message, default_delay)`
(gemini_model.py:17-55): only 429 errors are parsed; a
`retry_delay { seconds: N }` section yields `N + 2`; every parse failure
(`IndexError` / `ValueError`, modelled by the `none` branches) falls back to
the default. -/
def extract_retry_delay (errorMessage : List Char) (defaultDelay : Nat) : Nat :=
  if pyContains errorMessage ("429".toList) = false then defaultDelay
  else if pyContains errorMessage ("retry_delay".toList) then
    match (pySplit ("retry_delay \x7b".toList) errorMessage).get? 1 with
    | none => defaultDelay
    | some afterBrace =>
      let retryDelaySection := (pySplit ("\x7d".toList) afterBrace).headD []
      match (pySplit ("seconds:".toList) retryDelaySection).get? 1 with
      | none => defaultDelay
      | some rawSeconds =>
        let secondsStr := pyStrip rawSeconds
        let digits := secondsStr.filter Char.isDigit
        if digits = [] then defaultDelay else digitsToNat digits + 2
  else defaultDelay

/-! ## Model-call outcomes and the retry loops

A single `generate_content` call either raises an exception (message `m`) or
returns a response carrying an optional `prompt_feedback.block_reason`, a
(possibly empty) `text`, and a `finish_reason`.  An oracle
`Nat → GenOutcome` gives the outcome of the n-th call of a loop (`n` equals
`retry_count`, since every loop iteration performs exactly one call). -/

/-- Outcome of one `model.generate_content` call. -/
inductive GenOutcome where
  | resp (blockReason : Option (List Char)) (text : List Char) (finishReason : List Char)
  | raise (msg : List Char)

/-- Body of the `try` block of `GeminiModel.predict` (gemini_model.py:133-149):
a blocked or empty response raises an `APIError` inside the `try`, which the
loop's own `except` then classifies like any other exception. -/
def attemptOutcome : GenOutcome → Except (List Char) (List Char)
  | .raise m => .error m
  | .resp (some br) _ _ => .error (("Content generation blocked (".toList) ++ br ++ (")".toList))
  | .resp none t fin =>
    if t = [] then .error (("No text returned (Reason: ".toList) ++ fin ++ (").".toList))
    else .ok t

/-- The two exception types `GeminiModel.predict` can raise. -/
inductive PredictError where
  | rateLimit (msg : List Char)
  | api (msg : List Char)
deriving DecidableEq

/-- Retry loop of `GeminiModel.predict` (gemini_model.py:130-162).
`remaining` is `max_retries + 1 - retry_count`, so `while retry_count <=
max_retries` is `remaining > 0`.  Returns the result, the number of
`generate_content` calls performed, and the list of back-off delays slept. -/
def predictAux (oracle : Nat → GenOutcome) (baseRetryDelay : Nat) :
    Nat → Nat → Except PredictError (List Char) × Nat × List Nat
  | 0, _ => (.error (.rateLimit ("Rate limit exceeded after maximum retries.".toList)), 0, [])
  | remaining + 1, retryCount =>
    match attemptOutcome (oracle retryCount) with
    | .ok t => (.ok t, 1, [])
    | .error m =>
      if rateLimitClass m then
        let d := extract_retry_delay m (baseRetryDelay * 2 ^ retryCount)
        let r := predictAux oracle baseRetryDelay remaining (retryCount + 1)
        (r.1, r.2.1 + 1, d :: r.2.2)
      else (.error (.api (("Gemini API error: ".toList) ++ m)), 1, [])

/-- `GeminiModel.predict(inputs, max_retries, base_retry_delay)`. -/
def predict (oracle : Nat → GenOutcome) (maxRetries baseRetryDelay : Nat) :
    Except PredictError (List Char) × Nat × List Nat :=
  predictAux oracle baseRetryDelay (maxRetries + 1) 0

/-- The dict-format error substring tested at gemini_case_handler.py:779 and
service.py:594. -/
def dictFormatErr : List Char :=
  "Unable to determine the intended type of the `dict`".toList

/-- Retry loop of `GeminiHandler.query_with_batch`
(gemini_case_handler.py:755-790): blocked and empty responses return
`"Error: ..."` strings directly; rate-limit-class exceptions sleep and retry;
dict-format exceptions fix the batch and retry (consuming a retry slot, no
sleep); any other exception raises `RuntimeError` (the `Except.error` case).
After the loop: `"Error: Rate limit exceeded after maximum retries."`. -/
def handlerQueryAux (oracle : Nat → GenOutcome) (baseRetryDelay : Nat) :
    Nat → Nat → Except (List Char) (List Char) × Nat × List Nat
  | 0, _ => (.ok ("Error: Rate limit exceeded after maximum retries.".toList), 0, [])
  | remaining + 1, retryCount =>
    match oracle retryCount with
    | .resp (some br) _ _ =>
      (.ok (("Error: Content generation blocked (".toList) ++ br ++ (")".toList)), 1, [])
    | .resp none t fin =>
      if t = [] then (.ok (("Error: No text returned (Reason: ".toList) ++ fin ++ (").".toList)), 1, [])
      else (.ok t, 1, [])
    | .raise m =>
      if rateLimitClass m then
        let d := extract_retry_delay m (baseRetryDelay * 2 ^ retryCount)
        let r := handlerQueryAux oracle baseRetryDelay remaining (retryCount + 1)
        (r.1, r.2.1 + 1, d :: r.2.2)
      else if pyContains m dictFormatErr then
        let r := handlerQueryAux oracle baseRetryDelay remaining (retryCount + 1)
        (r.1, r.2.1 + 1, r.2.2)
      else (.error (("Gemini query failed: ".toList) ++ m), 1, [])

/-- The model-call portion of `GeminiHandler.query_with_batch`. -/
def handlerQueryRetryLoop (oracle : Nat → GenOutcome) (maxRetries baseRetryDelay : Nat) :
    Except (List Char) (List Char) × Nat × List Nat :=
  handlerQueryAux oracle baseRetryDelay (maxRetries + 1) 0

/-- The model-call portion of `InferenceService.query_with_batch`
(service.py:587-610): one `predict` call; `APIRateLimitError` becomes the
terminal rate-limit string; an `APIError` containing the dict-format
substring triggers one format-fix retry through a second full `predict`
(`oracle2`); other `APIError`s become `"Error: {message}"`.  Returns the
result string and the total number of `generate_content` calls. -/
def serviceQueryCall (oracle1 oracle2 : Nat → GenOutcome) (maxRetries baseRetryDelay : Nat) :
    List Char × Nat :=
  let r1 := predict oracle1 maxRetries baseRetryDelay
  match r1.1 with
  | .ok t => (t, r1.2.1)
  | .error (.rateLimit _) => ("Error: Rate limit exceeded after maximum retries.".toList, r1.2.1)
  | .error (.api m) =>
    if pyContains m dictFormatErr then
      let r2 := predict oracle2 maxRetries baseRetryDelay
      match r2.1 with
      | .ok t => (t, r1.2.1 + r2.2.1)
      | .error (.rateLimit em) =>
        (("Error: Failed to fix format and retry: ".toList) ++ em, r1.2.1 + r2.2.1)
      | .error (.api em) =>
        (("Error: Failed to fix format and retry: ".toList) ++ em, r1.2.1 + r2.2.1)
    else (("Error: ".toList) ++ m, r1.2.1)

/-- Rate-limit test of the handler's final-synthesis loop
(gemini_case_handler.py:661): note no `"quota"` test here. -/
def handlerSynthRateClass (m : List Char) : Bool :=
  pyContains m ("429".toList) || pyContains (pyLower m) ("rate limit".toList)

/-- Final-synthesis retry loop of `GeminiHandler.create_unified_analysis`
(gemini_case_handler.py:642-669): blocked / empty responses return
`"Error: ..."` strings; rate-limit exceptions sleep and retry; any other
exception is re-raised (`Except.error`); after the loop the handler returns
`"Error: Could not create unified analysis due to repeated rate limit or
other errors."`. -/
def handlerSynthesisAux (oracle : Nat → GenOutcome) (baseRetryDelay : Nat) :
    Nat → Nat → Except (List Char) (List Char) × Nat × List Nat
  | 0, _ =>
    (.ok ("Error: Could not create unified analysis due to repeated rate limit or other errors.".toList),
     0, [])
  | remaining + 1, retryCount =>
    match oracle retryCount with
    | .resp (some br) _ _ =>
      (.ok (("Error: Content generation blocked (".toList) ++ br ++ (")".toList)), 1, [])
    | .resp none t fin =>
      if t = [] then
        (.ok (("Error: No text returned from final synthesis (Reason: ".toList) ++ fin ++ (").".toList)), 1, [])
      else (.ok t, 1, [])
    | .raise m =>
      if handlerSynthRateClass m then
        let d := extract_retry_delay m (baseRetryDelay * 2 ^ retryCount)
        let r := handlerSynthesisAux oracle baseRetryDelay remaining (retryCount + 1)
        (r.1, r.2.1 + 1, d :: r.2.2)
      else (.error m, 1, [])

/-- The synthesis-call portion of `GeminiHandler.create_unified_analysis`. -/
def handlerSynthesisLoop (oracle : Nat → GenOutcome) (maxRetries baseRetryDelay : Nat) :
    Except (List Char) (List Char) × Nat × List Nat :=
  handlerSynthesisAux oracle baseRetryDelay (maxRetries + 1) 0

/-- The synthesis-call portion of `InferenceService.create_unified_analysis`
(service.py:452-461): one `predict` with the shared retry loop;
`APIRateLimitError` becomes the sentinel string, `APIError e` becomes
`"Error: {e}"`. -/
def serviceCreateUnifiedTail (oracle : Nat → GenOutcome) (maxRetries baseRetryDelay : Nat) :
    List Char :=
  match (predict oracle maxRetries baseRetryDelay).1 with
  | .ok t => t
  | .error (.rateLimit _) =>
    "Error: Could not create unified analysis due to persistent API rate limits.".toList
  | .error (.api m) => ("Error: ".toList) ++ m

/-! ## Prompt resolution

Python dict values are truthy only when non-empty; every tier of both
resolution chains accepts a key only if its value is a non-empty string
(`if not system_prompt_text` falls through on `None` and `""` alike), which
`truthyGet` captures. -/

/-- `self.system_prompts.get(key)` collapsed with the truthiness test used on
its result. -/
def truthyGet (table : List (List Char × List Char)) (key : List Char) : Option (List Char) :=
  match table.lookup key with
  | some v => if v = [] then none else some v
  | none => none

/-- The flexible-matching loop of `GeminiHandler.query_with_batch`
(gemini_case_handler.py:708-714): first key similar to `section`
(case-insensitive substring either way) whose value is truthy; a falsy value
does not break the loop. -/
def handlerFuzzy (sectionName : List Char) (table : List (List Char × List Char)) :
    Option (List Char) :=
  table.findSome? fun kv =>
    if pyContains (pyLower kv.1) (pyLower sectionName) || pyContains (pyLower sectionName) (pyLower kv.1) then
      (if kv.2 = [] then none else some kv.2)
    else none

/-- Prompt resolution of `GeminiHandler.query_with_batch`
(gemini_case_handler.py:686-734): case-specific key, generic key, fuzzy
match, underscore variant, space variant, synthesized default.  `caseType =
[]` models a falsy `self.case_type`. -/
def handler_query_prompt (sectionName caseType : List Char)
    (table : List (List Char × List Char)) : List Char :=
  match (if caseType = [] then none
         else truthyGet table (sectionName ++ ("_".toList) ++ caseType)) with
  | some v => v
  | none =>
  match truthyGet table sectionName with
  | some v => v
  | none =>
  match handlerFuzzy sectionName table with
  | some v => v
  | none =>
  match truthyGet table (sectionName.map fun c => if c = ' ' then '_' else c) with
  | some v => v
  | none =>
  match truthyGet table (sectionName.map fun c => if c = '_' then ' ' else c) with
  | some v => v
  | none =>
    ("Analyze the provided documents and extract information for the '".toList) ++ sectionName ++
      ("' section of the report.".toList)

/-- Prompt resolution of `InferenceService.query_with_batch`
(service.py:489-563): case-specific keys (underscore and space forms),
generic keys (both forms), then flexible matching over a non-empty table
whose first similar key wins unconditionally (a falsy value then fails the
final truthiness test); there is no synthesized default — both failure exits
return `"Error: Not enough information is provided. ..."` strings. -/
def service_query_prompt (sectionName caseType : List Char)
    (table : List (List Char × List Char)) : Except (List Char) (List Char) :=
  let sectionNormalized := sectionName.map fun c => if c = ' ' then '_' else c
  let sectionWithSpaces := sectionNormalized.map fun c => if c = '_' then ' ' else c
  match (if caseType = [] then none
         else match truthyGet table (sectionNormalized ++ ("_".toList) ++ caseType) with
              | some v => some v
              | none => truthyGet table (sectionWithSpaces ++ ("_".toList) ++ caseType)) with
  | some v => .ok v
  | none =>
  match truthyGet table sectionNormalized with
  | some v => .ok v
  | none =>
  match truthyGet table sectionWithSpaces with
  | some v => .ok v
  | none =>
  if table = [] then
    .error ("Error: Not enough information is provided. No system prompts found in MongoDB.".toList)
  else
    match table.findSome? (fun kv =>
      if pyContains (pyLower kv.1) (pyLower sectionName) || pyContains (pyLower sectionName) (pyLower kv.1) ||
         pyContains (pyLower kv.1) (pyLower sectionNormalized) ||
         pyContains (pyLower sectionNormalized) (pyLower kv.1) then
        some kv.2
      else none) with
    | some v =>
      if v = [] then
        .error (("Error: Not enough information is provided. No system prompt found for section '".toList) ++
          sectionName ++ ("'.".toList))
      else .ok v
    | none =>
      .error (("Error: Not enough information is provided. No system prompt found for section '".toList) ++
        sectionName ++ ("'.".toList))

/-! ## Section Splitter

`extract_findings_and_background` and `parse_background_response` are
translated from src/inference/postprocessing.py:120-254;
`parse_text_to_json` from src/utils/text_parser.py:10-104. -/

/-- The findings header variants of postprocessing.py:137-143, in list
order. -/
def findingsHeaders : List (List Char) :=
  ["**1.4 Findings**".toList, "**Findings**".toList, "**1.4. Findings**".toList,
   "**1.4 FINDINGS**".toList, "**FINDINGS**".toList]

/-- The background header variants of postprocessing.py:145-152, in list
order. -/
def backgroundHeaders : List (List Char) :=
  ["**2. Background Information**".toList, "**2.0 Background Information**".toList,
   "**Background Information**".toList, "**BACKGROUND INFORMATION**".toList,
   "**2. BACKGROUND INFORMATION**".toList, "**2.0 BACKGROUND INFORMATION**".toList]

/-- One step of the earliest-occurrence scan of postprocessing.py:154-172:
keep the strictly smaller find position. -/
def earliestStep (text : List Char) (acc : Option (Nat × List Char)) (h : List Char) :
    Option (Nat × List Char) :=
  match pyFind h text with
  | none => acc
  | some pos =>
    match acc with
    | none => some (pos, h)
    | some best => if pos < best.1 then some (pos, h) else acc

/-- The earliest-occurrence scan of postprocessing.py:154-172: for each
header in order, keep the strictly smaller find position. -/
def earliestHeader (text : List Char) (headers : List (List Char)) :
    Option (Nat × List Char) :=
  headers.foldl (earliestStep text) none

/-- `extract_findings_and_background(response_text)`
(postprocessing.py:120-214).  Note the code's both-found branch always takes
`response_text[start_findings:start_background]` regardless of which header
comes first. -/
def extract_findings_and_background (responseText : List Char) :
    List Char × List Char :=
  let sf := earliestHeader responseText findingsHeaders
  let sb := earliestHeader responseText backgroundHeaders
  let fpbp :=
    match sf, sb with
    | some (startF, foundH), some (startB, _) =>
      let fp := pyStrip (pySlice responseText startF startB)
      ((if foundH ≠ ("**1.4 Findings**".toList) then
          pyReplaceFirst foundH ("**1.4 Findings**".toList) fp
        else fp),
       pyStrip (responseText.drop startB))
    | some (startF, foundH), none =>
      let fp := pyStrip (responseText.drop startF)
      ((if foundH ≠ ("**1.4 Findings**".toList) then
          pyReplaceFirst foundH ("**1.4 Findings**".toList) fp
        else fp),
       [])
    | none, some (startB, _) =>
      let pre := pyStrip (responseText.take startB)
      ((if pre ≠ [] then ("**1.4 Findings**\n".toList) ++ pre else []),
       pyStrip (responseText.drop startB))
    | none, none => ([], responseText)
  let fp2 :=
    match sb with
    | some (startB, _) =>
      if fpbp.1.isEmpty && (!fpbp.2.isEmpty) &&
         pyContains (pyLower fpbp.2) ("finding".toList) &&
         (!(pyStrip (responseText.take startB)).isEmpty) then
        ("**1.4 Findings**\n".toList) ++ pyStrip (responseText.take startB)
      else fpbp.1
    | none => fpbp.1
  let bp2 :=
    if fpbp.2.isEmpty && (!responseText.isEmpty) && fp2.isEmpty then responseText
    else fpbp.2
  (fp2, bp2)

/-- `parse_background_response(response_text)` (postprocessing.py:217-254):
split at the first `"**Background Information**"`, else fall back to
`extract_findings_and_background`. -/
def parse_background_response (responseText : List Char) : List Char × List Char :=
  match pyFind ("**Background Information**".toList) responseText with
  | some backgroundIndex =>
    (pyStrip (responseText.take backgroundIndex), pyStrip (responseText.drop backgroundIndex))
  | none => extract_findings_and_background responseText

/-! ### The regex patterns of `parse_text_to_json`

text_parser.py detects sections with
`findings_pattern = (?:(?:\*\*)?(?:1\.4\.?|1\.4 |)(?:FINDINGS|Findings)(?:\*\*)?)` and
`background_pattern = (?:(?:\*\*)?(?:2\.0?\.?|2\.0 |2\. |)(?:BACKGROUND INFORMATION|Background Information)(?:\*\*)?)`
under `re.IGNORECASE`.  Both patterns are a case-insensitive required core
with an optional `**` prefix, an optional numbering alternation, and an
optional greedy `**` suffix.  The Python backtracking order is: the optional
`**` prefix prefers present; the numbering alternatives are tried in
alternation order (with a greedy optional dot inside the first); the suffix
is greedy.  `regexCombos` enumerates the (prefix, numbering) attempts in
exactly that order, so `matchLenAt` computes Python's match length at a
position and `regexSearch` the leftmost match. -/

/-- Expansion of `(?:1\.4\.?|1\.4 |)` in backtracking order. -/
def findingsMids : List (List Char) :=
  ["1.4.".toList, "1.4".toList, "1.4 ".toList, []]

/-- Expansion of `(?:2\.0?\.?|2\.0 |2\. |)` in backtracking order. -/
def backgroundMids : List (List Char) :=
  ["2.0.".toList, "2.0".toList, "2..".toList, "2.".toList, "2.0 ".toList, "2. ".toList, []]

/-- Case-insensitive `pyStartsWith`. -/
def ciStartsWith (pat s : List Char) : Bool :=
  pyStartsWith (pyLower pat) (pyLower s)

/-- All (optional-`**`-prefix, numbering) attempts, in backtracking order. -/
def regexCombos (mids : List (List Char)) : List (List Char × List Char) :=
  (mids.map fun m => ("**".toList, m)) ++ mids.map fun m => ([], m)

/-- Length of the regex match starting at the head of `cs`, if any
(the semantics of anchored matching for the two patterns above). -/
def matchLenAt (mids : List (List Char)) (core : List Char) (cs : List Char) : Option Nat :=
  (regexCombos mids).findSome? fun pm =>
    if pyStartsWith pm.1 cs && pyStartsWith pm.2 (cs.drop pm.1.length) &&
       ciStartsWith core (cs.drop (pm.1.length + pm.2.length)) then
      some (let base := pm.1.length + pm.2.length + core.length
            if pyStartsWith ("**".toList) (cs.drop base) then base + 2 else base)
    else none

/-- `re.search`: leftmost position with a match, together with the match
length. -/
def regexSearchAux (mids : List (List Char)) (core : List Char) :
    Nat → List Char → Option (Nat × Nat)
  | p, [] =>
    match matchLenAt mids core [] with
    | some len => some (p, len)
    | none => none
  | p, c :: t =>
    match matchLenAt mids core (c :: t) with
    | some len => some (p, len)
    | none => regexSearchAux mids core (p + 1) t

/-- `re.search(pattern, text, re.IGNORECASE)` for the two section patterns. -/
def regexSearch (mids : List (List Char)) (core : List Char) (text : List Char) :
    Option (Nat × Nat) :=
  regexSearchAux mids core 0 text

/-- `parse_text_to_json(text)` (text_parser.py:10-104), returning the pair
`(response_of_findings, response)`. -/
def parse_text_to_json (text : List Char) : List Char × List Char :=
  if text.isEmpty || (pyStrip text).isEmpty then ([], [])
  else
    let findingsMatch := regexSearch findingsMids ("findings".toList) text
    let backgroundMatch := regexSearch backgroundMids ("background information".toList) text
    let sections :=
      match findingsMatch, backgroundMatch with
      | some (fs, _), some (bs, _) =>
        if fs < bs then (pyStrip (pySlice text fs bs), pyStrip (text.drop bs))
        else (pyStrip (text.drop fs), pyStrip (pySlice text bs fs))
      | some (fs, _), none => (pyStrip (text.drop fs), [])
      | none, some (bs, _) =>
        ((if bs != 0 && !(pyStrip (text.take bs)).isEmpty then
            ("**1.4 Findings**\n".toList) ++ pyStrip (text.take bs)
          else []),
         pyStrip (text.drop bs))
      | none, none =>
        if pyContains (pyLower text) ("finding".toList) then
          (("**1.4 Findings**\n".toList) ++ pyStrip text, [])
        else ([], pyStrip text)
    let fSec1 :=
      if pyContains text ("This is some initial content without a header".toList) then
        ("**1.4 Findings**\n".toList) ++
          pyStrip (text.take (match pyFind ("**2. Background Information**".toList) text with
            | some i => i
            | none => text.length - 1))
      else sections.1
    let fSec2 :=
      if pyContains text ("The investigation found several findings related to the incident".toList) then
        ("**1.4 Findings**\n".toList) ++ pyStrip text
      else fSec1
    let fSec3 :=
      if fSec2.isEmpty then fSec2
      else if pyStartsWith ("**1.4 Findings**".toList) fSec2 then fSec2
      else
        let subbed :=
          match regexSearch findingsMids ("findings".toList) fSec2 with
          | some (p, len) => fSec2.take p ++ ("**1.4 Findings**".toList) ++ fSec2.drop (p + len)
          | none => fSec2
        if pyStartsWith ("**1.4 Findings**".toList) subbed then subbed
        else ("**1.4 Findings**\n".toList) ++ subbed
    let bSec2 :=
      if sections.2.isEmpty then sections.2
      else if (matchLenAt backgroundMids ("background information".toList) sections.2).isSome then
        sections.2
      else ("**Background Information**\n".toList) ++ sections.2
    (fSec3, bSec2)

/-! ## Supporting lemmas about the string primitives -/

theorem pyStartsWith_iff (pat : List Char) :
    ∀ s, pyStartsWith pat s = true ↔ ∃ r, s = pat ++ r := by
  induction pat with
  | nil => intro s; simp [pyStartsWith]
  | cons p ps ih =>
    intro s
    cases s with
    | nil => simp [pyStartsWith]
    | cons c cs =>
      by_cases h : p = c
      · subst h
        simp [pyStartsWith, ih]
      · simp only [pyStartsWith, if_neg h]
        constructor
        · intro hfalse
          exact absurd hfalse (by simp)
        · rintro ⟨r, hr⟩
          rw [List.cons_append] at hr
          exact absurd (List.head_eq_of_cons_eq hr).symm h

theorem pyStartsWith_append (pat r : List Char) : pyStartsWith pat (pat ++ r) = true :=
  (pyStartsWith_iff pat (pat ++ r)).mpr ⟨r, rfl⟩

theorem pyStartsWith_refl (pat : List Char) : pyStartsWith pat pat = true :=
  (pyStartsWith_iff pat pat).mpr ⟨[], (List.append_nil pat).symm⟩

theorem pyStartsWith_ne_nil {pat s : List Char} (hne : pat ≠ [])
    (h : pyStartsWith pat s = true) : s ≠ [] := by
  obtain ⟨r, rfl⟩ := (pyStartsWith_iff pat s).mp h
  intro hc
  exact hne (List.append_eq_nil.mp hc).1

theorem pyFind_startsWith (pat : List Char) :
    ∀ (s : List Char) (i : Nat), pyFind pat s = some i →
      pyStartsWith pat (s.drop i) = true := by
  intro s
  induction s with
  | nil =>
    intro i h
    simp only [pyFind] at h
    split at h
    · rename_i hsw
      cases h
      simpa using hsw
    · exact absurd h (by simp)
  | cons c t ih =>
    intro i h
    simp only [pyFind] at h
    split at h
    · rename_i hsw
      cases h
      simpa using hsw
    · cases hf : pyFind pat t with
      | none => rw [hf] at h; simp at h
      | some j =>
        rw [hf] at h
        simp only [Option.map_some'] at h
        cases h
        simpa [List.drop_succ_cons] using ih j hf

theorem pyFind_of_startsWith {pat s : List Char} (h : pyStartsWith pat s = true) :
    pyFind pat s = some 0 := by
  cases s with
  | nil => simp [pyFind, h]
  | cons c t => simp [pyFind, h]

theorem pyReplaceFirst_of_startsWith {pat sub s : List Char}
    (h : pyStartsWith pat s = true) :
    pyReplaceFirst pat sub s = sub ++ s.drop pat.length := by
  simp [pyReplaceFirst, pyFind_of_startsWith h]

theorem pyStartsWith_take {pat s : List Char} {n : Nat}
    (h : pyStartsWith pat s = true) (hn : pat.length ≤ n) :
    pyStartsWith pat (s.take n) = true := by
  obtain ⟨r, rfl⟩ := (pyStartsWith_iff pat _).mp h
  refine (pyStartsWith_iff pat _).mpr ⟨r.take (n - pat.length), ?_⟩
  rw [List.take_append_eq_append_take, List.take_of_length_le hn]

theorem dropWhile_append_eval (p : Char → Bool) :
    ∀ (a b : List Char), (a ++ b).dropWhile p =
      if (a.dropWhile p).isEmpty then b.dropWhile p else a.dropWhile p ++ b := by
  intro a
  induction a with
  | nil => intro b; simp
  | cons x xs ih =>
    intro b
    by_cases hx : p x
    · simpa [List.dropWhile_cons, hx] using ih b
    · simp [List.dropWhile_cons, hx]

theorem dropWhile_of_headNonWs {l : List Char} (h : headNonWs l = true) :
    l.dropWhile wsChar = l := by
  match l, h with
  | c :: cs, h =>
    have hc : wsChar c = false := by simpa [headNonWs] using h
    simp [List.dropWhile_cons, hc]

theorem pyStrip_startsWith {pat s : List Char}
    (hhd : headNonWs pat = true) (hlast : headNonWs pat.reverse = true)
    (h : pyStartsWith pat s = true) :
    pyStartsWith pat (pyStrip s) = true := by
  obtain ⟨r, rfl⟩ := (pyStartsWith_iff pat s).mp h
  have hl : (pat ++ r).dropWhile wsChar = pat ++ r := by
    rw [dropWhile_append_eval]
    rw [dropWhile_of_headNonWs hhd]
    have : pat.isEmpty = false := by
      cases pat
      · simp [headNonWs] at hhd
      · rfl
    simp [this]
  unfold pyStrip
  rw [hl, List.reverse_append, dropWhile_append_eval]
  by_cases hre : (r.reverse.dropWhile wsChar).isEmpty
  · rw [if_pos hre, dropWhile_of_headNonWs hlast, List.reverse_reverse]
    exact pyStartsWith_refl pat
  · rw [if_neg hre, List.reverse_append, List.reverse_reverse]
    exact pyStartsWith_append pat _

theorem pyStrip_ne_nil_of_startsWith {pat s : List Char}
    (hhd : headNonWs pat = true) (hlast : headNonWs pat.reverse = true)
    (h : pyStartsWith pat s = true) : pyStrip s ≠ [] := by
  have hp := pyStrip_startsWith hhd hlast h
  have hne : pat ≠ [] := by
    cases pat
    · simp [headNonWs] at hhd
    · simp
  exact pyStartsWith_ne_nil hne hp

/-! ## Soundness of the earliest-header scan -/

theorem foldl_earliestStep_sound (text : List Char) :
    ∀ (hs : List (List Char)) (acc : Option (Nat × List Char)) (i : Nat) (h : List Char),
      hs.foldl (earliestStep text) acc = some (i, h) →
      acc = some (i, h) ∨ (pyFind h text = some i ∧ h ∈ hs) := by
  intro hs
  induction hs with
  | nil => intro acc i h hf; exact .inl hf
  | cons hd tl ih =>
    intro acc i h hf
    rw [List.foldl_cons] at hf
    rcases ih (earliestStep text acc hd) i h hf with hc | hc
    · unfold earliestStep at hc
      cases hfd : pyFind hd text with
      | none => rw [hfd] at hc; exact .inl hc
      | some pos =>
        rw [hfd] at hc
        cases acc with
        | none =>
          simp only [Option.some.injEq, Prod.mk.injEq] at hc
          obtain ⟨h1, h2⟩ := hc
          exact .inr ⟨by rw [← h2, hfd, h1], by rw [← h2]; exact List.mem_cons_self hd tl⟩
        | some best =>
          by_cases hlt : pos < best.1
          · simp only [hlt, if_true, Option.some.injEq, Prod.mk.injEq] at hc
            obtain ⟨h1, h2⟩ := hc
            exact .inr ⟨by rw [← h2, hfd, h1], by rw [← h2]; exact List.mem_cons_self hd tl⟩
          · simp only [hlt, if_false] at hc
            exact .inl hc
    · exact .inr ⟨hc.1, List.mem_cons_of_mem _ hc.2⟩

theorem earliestHeader_spec {text : List Char} {hs : List (List Char)} {i : Nat}
    {h : List Char} (hf : earliestHeader text hs = some (i, h)) :
    pyFind h text = some i ∧ h ∈ hs := by
  rcases foldl_earliestStep_sound text hs none i h hf with hc | hc
  · exact absurd hc (by simp)
  · exact hc

theorem foldl_earliestStep_none (text : List Char) :
    ∀ hs : List (List Char), (∀ h ∈ hs, pyFind h text = none) →
      hs.foldl (earliestStep text) none = none := by
  intro hs
  induction hs with
  | nil => intro _; rfl
  | cons hd tl ih =>
    intro hall
    rw [List.foldl_cons]
    have hstep : earliestStep text none hd = none := by
      unfold earliestStep
      rw [hall hd (List.mem_cons_self hd tl)]
    rw [hstep]
    exact ih fun h hm => hall h (List.mem_cons_of_mem _ hm)

theorem earliestHeader_none {text : List Char} {hs : List (List Char)}
    (hall : ∀ h ∈ hs, pyFind h text = none) : earliestHeader text hs = none :=
  foldl_earliestStep_none text hs hall

/-! ## Behaviour of the retry loops -/

theorem predictAux_calls_le (oracle : Nat → GenOutcome) (b : Nat) :
    ∀ remaining rc, (predictAux oracle b remaining rc).2.1 ≤ remaining := by
  intro remaining
  induction remaining with
  | zero => intro rc; simp [predictAux]
  | succ k ih =>
    intro rc
    simp only [predictAux]
    cases hA : attemptOutcome (oracle rc) with
    | ok t => show 1 ≤ k + 1; omega
    | error m =>
      cases hr : rateLimitClass m with
      | true =>
        simp only [hr, if_true]
        have := ih (rc + 1)
        show (predictAux oracle b k (rc + 1)).2.1 + 1 ≤ k + 1
        omega
      | false =>
        simp only [hr, Bool.false_eq_true, if_false]
        show 1 ≤ k + 1
        omega

theorem predictAux_all_rate (msgs : Nat → List Char) (b : Nat)
    (hrate : ∀ n, rateLimitClass (msgs n) = true) :
    ∀ remaining rc,
      predictAux (fun n => .raise (msgs n)) b remaining rc =
        (.error (.rateLimit ("Rate limit exceeded after maximum retries.".toList)),
         remaining,
         (List.range' rc remaining).map fun n => extract_retry_delay (msgs n) (b * 2 ^ n)) := by
  intro remaining
  induction remaining with
  | zero => intro rc; simp [predictAux, List.range']
  | succ k ih =>
    intro rc
    simp only [predictAux, attemptOutcome, hrate rc, if_true]
    rw [ih (rc + 1)]
    simp [List.range']

theorem handlerQueryAux_calls_le (oracle : Nat → GenOutcome) (b : Nat) :
    ∀ remaining rc, (handlerQueryAux oracle b remaining rc).2.1 ≤ remaining := by
  intro remaining
  induction remaining with
  | zero => intro rc; simp [handlerQueryAux]
  | succ k ih =>
    intro rc
    simp only [handlerQueryAux]
    cases hA : oracle rc with
    | resp blockReason t fin =>
      cases blockReason with
      | some br => show 1 ≤ k + 1; omega
      | none =>
        by_cases ht : t = []
        · simp only [ht, if_pos rfl]
          show 1 ≤ k + 1
          omega
        · simp only [if_neg ht]
          show 1 ≤ k + 1
          omega
    | raise m =>
      cases hr : rateLimitClass m with
      | true =>
        simp only [hr, if_true]
        have := ih (rc + 1)
        show (handlerQueryAux oracle b k (rc + 1)).2.1 + 1 ≤ k + 1
        omega
      | false =>
        simp only [hr, Bool.false_eq_true, if_false]
        cases hd : pyContains m dictFormatErr with
        | true =>
          simp only [hd, if_true]
          have := ih (rc + 1)
          show (handlerQueryAux oracle b k (rc + 1)).2.1 + 1 ≤ k + 1
          omega
        | false =>
          simp only [hd, Bool.false_eq_true, if_false]
          show 1 ≤ k + 1
          omega

theorem handlerQueryAux_all_rate (msgs : Nat → List Char) (b : Nat)
    (hrate : ∀ n, rateLimitClass (msgs n) = true) :
    ∀ remaining rc,
      handlerQueryAux (fun n => .raise (msgs n)) b remaining rc =
        (.ok ("Error: Rate limit exceeded after maximum retries.".toList),
         remaining,
         (List.range' rc remaining).map fun n => extract_retry_delay (msgs n) (b * 2 ^ n)) := by
  intro remaining
  induction remaining with
  | zero => intro rc; simp [handlerQueryAux, List.range']
  | succ k ih =>
    intro rc
    simp only [handlerQueryAux, hrate rc, if_true]
    rw [ih (rc + 1)]
    simp [List.range']

theorem handlerSynthesisAux_all_rate (msgs : Nat → List Char) (b : Nat)
    (hrate : ∀ n, handlerSynthRateClass (msgs n) = true) :
    ∀ remaining rc,
      handlerSynthesisAux (fun n => .raise (msgs n)) b remaining rc =
        (.ok ("Error: Could not create unified analysis due to repeated rate limit or other errors.".toList),
         remaining,
         (List.range' rc remaining).map fun n => extract_retry_delay (msgs n) (b * 2 ^ n)) := by
  intro remaining
  induction remaining with
  | zero => intro rc; simp [handlerSynthesisAux, List.range']
  | succ k ih =>
    intro rc
    simp only [handlerSynthesisAux, hrate rc, if_true]
    rw [ih (rc + 1)]
    simp [List.range']

theorem predict_nonrate_first (oracle : Nat → GenOutcome) (maxR b : Nat) (m : List Char)
    (hA : attemptOutcome (oracle 0) = .error m) (hr : rateLimitClass m = false) :
    predict oracle maxR b = (.error (.api (("Gemini API error: ".toList) ++ m)), 1, []) := by
  unfold predict
  simp only [predictAux, hA, hr, Bool.false_eq_true, if_false]

theorem handlerQuery_nonrate_first (oracle : Nat → GenOutcome) (maxR b : Nat) (m : List Char)
    (ho : oracle 0 = .raise m) (hr : rateLimitClass m = false)
    (hd : pyContains m dictFormatErr = false) :
    handlerQueryRetryLoop oracle maxR b =
      (.error (("Gemini query failed: ".toList) ++ m), 1, []) := by
  unfold handlerQueryRetryLoop
  simp only [handlerQueryAux, ho, hr, hd, Bool.false_eq_true, if_false]

theorem handlerQuery_blocked_first (oracle : Nat → GenOutcome) (maxR b : Nat)
    (br t fin : List Char) (ho : oracle 0 = .resp (some br) t fin) :
    handlerQueryRetryLoop oracle maxR b =
      (.ok (("Error: Content generation blocked (".toList) ++ br ++ (")".toList)), 1, []) := by
  unfold handlerQueryRetryLoop
  simp only [handlerQueryAux, ho]

theorem handlerSynthesis_nonrate_first (oracle : Nat → GenOutcome) (maxR b : Nat)
    (m : List Char) (ho : oracle 0 = .raise m) (hr : handlerSynthRateClass m = false) :
    handlerSynthesisLoop oracle maxR b = (.error m, 1, []) := by
  unfold handlerSynthesisLoop
  simp only [handlerSynthesisAux, ho, hr, Bool.false_eq_true, if_false]

theorem serviceQueryCall_calls_le (o1 o2 : Nat → GenOutcome) (maxR b : Nat) :
    (serviceQueryCall o1 o2 maxR b).2 ≤ 2 * (maxR + 1) := by
  have h1 : (predict o1 maxR b).2.1 ≤ maxR + 1 := predictAux_calls_le o1 b (maxR + 1) 0
  have h2 : (predict o2 maxR b).2.1 ≤ maxR + 1 := predictAux_calls_le o2 b (maxR + 1) 0
  unfold serviceQueryCall
  dsimp only
  split
  · dsimp only; omega
  · dsimp only; omega
  · split
    · split
      · dsimp only; omega
      · dsimp only; omega
      · dsimp only; omega
    · dsimp only; omega

theorem serviceQueryCall_all_rate (msgs : Nat → List Char) (o2 : Nat → GenOutcome)
    (maxR b : Nat) (hrate : ∀ n, rateLimitClass (msgs n) = true) :
    serviceQueryCall (fun n => .raise (msgs n)) o2 maxR b =
      ("Error: Rate limit exceeded after maximum retries.".toList, maxR + 1) := by
  have hp : predict (fun n => GenOutcome.raise (msgs n)) maxR b = _ :=
    predictAux_all_rate msgs b hrate (maxR + 1) 0
  unfold serviceQueryCall
  rw [hp]

theorem serviceTail_all_rate (msgs : Nat → List Char) (maxR b : Nat)
    (hrate : ∀ n, rateLimitClass (msgs n) = true) :
    serviceCreateUnifiedTail (fun n => .raise (msgs n)) maxR b =
      "Error: Could not create unified analysis due to persistent API rate limits.".toList := by
  have hp : predict (fun n => GenOutcome.raise (msgs n)) maxR b = _ :=
    predictAux_all_rate msgs b hrate (maxR + 1) 0
  unfold serviceCreateUnifiedTail
  rw [hp]

theorem serviceTail_api (oracle : Nat → GenOutcome) (maxR b : Nat) (m : List Char)
    (h : (predict oracle maxR b).1 = .error (.api m)) :
    serviceCreateUnifiedTail oracle maxR b = ("Error: ".toList) ++ m := by
  unfold serviceCreateUnifiedTail
  rw [h]

/-! ## Prompt-resolution lemmas -/

theorem truthyGet_ne_nil {table : List (List Char × List Char)} {key v : List Char}
    (h : truthyGet table key = some v) : v ≠ [] := by
  unfold truthyGet at h
  cases hl : table.lookup key with
  | none => rw [hl] at h; exact absurd h (by simp)
  | some w =>
    rw [hl] at h
    dsimp only at h
    by_cases hw : w = []
    · rw [if_pos hw] at h
      exact absurd h (by simp)
    · rw [if_neg hw] at h
      cases h
      exact hw

theorem handlerFuzzy_ne_nil {s : List Char} {table : List (List Char × List Char)}
    {v : List Char} (h : handlerFuzzy s table = some v) : v ≠ [] := by
  unfold handlerFuzzy at h
  obtain ⟨kv, _, hkv⟩ := List.exists_of_findSome?_eq_some h
  by_cases hc : (pyContains (pyLower kv.1) (pyLower s) ||
      pyContains (pyLower s) (pyLower kv.1)) = true
  · rw [if_pos hc] at hkv
    by_cases hke : kv.2 = []
    · rw [if_pos hke] at hkv
      exact absurd hkv (by simp)
    · rw [if_neg hke] at hkv
      cases hkv
      exact hke
  · rw [if_neg hc] at hkv
    exact absurd hkv (by simp)

theorem handler_query_prompt_ne_nil (sectionName caseType : List Char)
    (table : List (List Char × List Char)) :
    handler_query_prompt sectionName caseType table ≠ [] := by
  unfold handler_query_prompt
  cases h1 : (if caseType = [] then none
      else truthyGet table (sectionName ++ ("_".toList) ++ caseType)) with
  | some v =>
    show v ≠ []
    split at h1
    · exact absurd h1 (by simp)
    · exact truthyGet_ne_nil h1
  | none =>
    cases h2 : truthyGet table sectionName with
    | some v => show v ≠ []; exact truthyGet_ne_nil h2
    | none =>
      cases h3 : handlerFuzzy sectionName table with
      | some v => show v ≠ []; exact handlerFuzzy_ne_nil h3
      | none =>
        cases h4 : truthyGet table (sectionName.map fun c => if c = ' ' then '_' else c) with
        | some v => show v ≠ []; exact truthyGet_ne_nil h4
        | none =>
          cases h5 : truthyGet table (sectionName.map fun c => if c = '_' then ' ' else c) with
          | some v => show v ≠ []; exact truthyGet_ne_nil h5
          | none =>
            show ("Analyze the provided documents and extract information for the '".toList) ++
              sectionName ++ ("' section of the report.".toList) ≠ []
            intro hc
            have h0 := (List.append_eq_nil.mp (List.append_eq_nil.mp hc).1).1
            have hlit : ("Analyze the provided documents and extract information for the '".toList :
                List Char) ≠ [] := by decide
            exact hlit h0

/-! ## Splitter lemmas -/

theorem extract_no_headers (text : List Char)
    (hf : ∀ h ∈ findingsHeaders, pyFind h text = none)
    (hb : ∀ h ∈ backgroundHeaders, pyFind h text = none) :
    extract_findings_and_background text = ([], text) := by
  unfold extract_findings_and_background
  rw [earliestHeader_none hf, earliestHeader_none hb]
  dsimp only
  split <;> rfl

theorem isEmpty_false_of_ne_nil {l : List Char} (h : l ≠ []) : l.isEmpty = false := by
  cases l with
  | nil => exact absurd rfl h
  | cons c cs => rfl

theorem ite_ne_nil {c : Prop} [Decidable c] {a b : List Char}
    (ha : a ≠ []) (hb : b ≠ []) : (if c then a else b) ≠ [] := by
  by_cases h : c
  · rw [if_pos h]; exact ha
  · rw [if_neg h]; exact hb

theorem headerFacts :
    ∀ h ∈ findingsHeaders, headNonWs h = true ∧ headNonWs h.reverse = true := by
  decide

theorem backgroundHeaderFacts :
    ∀ h ∈ backgroundHeaders, headNonWs h = true ∧ headNonWs h.reverse = true := by
  decide

theorem extract_canonical_header (text : List Char) (i : Nat) (h : List Char)
    (hf : earliestHeader text findingsHeaders = some (i, h))
    (hout : earliestHeader text backgroundHeaders = none ∨
      ∃ j hb, earliestHeader text backgroundHeaders = some (j, hb) ∧ i + h.length ≤ j) :
    pyStartsWith ("**1.4 Findings**".toList)
      (extract_findings_and_background text).1 = true := by
  obtain ⟨hfind, hmem⟩ := earliestHeader_spec hf
  obtain ⟨hhd, hlast⟩ := headerFacts h hmem
  have hdrop : pyStartsWith h (text.drop i) = true := pyFind_startsWith h text i hfind
  unfold extract_findings_and_background
  rw [hf]
  rcases hout with hnone | ⟨j, hb, hbs, hlen⟩
  · rw [hnone]
    dsimp only
    -- findings part: strip of the tail, then first-occurrence header rewrite
    have hstrip : pyStartsWith h (pyStrip (text.drop i)) = true :=
      pyStrip_startsWith hhd hlast hdrop
    by_cases hcanon : h = ("**1.4 Findings**".toList)
    · rw [if_neg (by simp [hcanon])]
      exact hcanon ▸ hstrip
    · rw [if_pos hcanon]
      rw [pyReplaceFirst_of_startsWith hstrip]
      exact pyStartsWith_append _ _
  · rw [hbs]
    dsimp only
    have hslice : pyStartsWith h (pySlice text i j) = true := by
      unfold pySlice
      exact pyStartsWith_take hdrop (by omega)
    have hstrip : pyStartsWith h (pyStrip (pySlice text i j)) = true :=
      pyStrip_startsWith hhd hlast hslice
    have hcore : pyStartsWith ("**1.4 Findings**".toList)
        (if h ≠ ("**1.4 Findings**".toList) then
          pyReplaceFirst h ("**1.4 Findings**".toList) (pyStrip (pySlice text i j))
        else pyStrip (pySlice text i j)) = true := by
      by_cases hcanon : h = ("**1.4 Findings**".toList)
      · rw [if_neg (by simp [hcanon])]
        exact hcanon ▸ hstrip
      · rw [if_pos hcanon]
        rw [pyReplaceFirst_of_startsWith hstrip]
        exact pyStartsWith_append _ _
    have hne : (if h ≠ ("**1.4 Findings**".toList) then
        pyReplaceFirst h ("**1.4 Findings**".toList) (pyStrip (pySlice text i j))
      else pyStrip (pySlice text i j)) ≠ [] :=
      pyStartsWith_ne_nil (by decide) hcore
    rw [isEmpty_false_of_ne_nil hne]
    simp only [Bool.false_and, Bool.false_eq_true, if_false]
    exact hcore

theorem c10_core (text : List Char) (hne : text ≠ []) :
    (extract_findings_and_background text).1 ≠ [] ∨
    (extract_findings_and_background text).2 ≠ [] := by
  unfold extract_findings_and_background
  cases hf : earliestHeader text findingsHeaders with
  | some ih =>
    obtain ⟨i, h⟩ := ih
    obtain ⟨hfind, hmem⟩ := earliestHeader_spec hf
    obtain ⟨hhd, hlast⟩ := headerFacts h hmem
    have hdrop : pyStartsWith h (text.drop i) = true := pyFind_startsWith h text i hfind
    cases hb : earliestHeader text backgroundHeaders with
    | some jb =>
      obtain ⟨j, bhdr⟩ := jb
      obtain ⟨hbfind, hbmem⟩ := earliestHeader_spec hb
      obtain ⟨hbhd, hblast⟩ := backgroundHeaderFacts bhdr hbmem
      have hbdrop : pyStartsWith bhdr (text.drop j) = true :=
        pyFind_startsWith bhdr text j hbfind
      have hbstrip : pyStrip (text.drop j) ≠ [] :=
        pyStrip_ne_nil_of_startsWith hbhd hblast hbdrop
      right
      dsimp only
      -- the background component survives every later step
      exact ite_ne_nil hne hbstrip
    | none =>
      left
      dsimp only
      have hstrip : pyStartsWith h (pyStrip (text.drop i)) = true :=
        pyStrip_startsWith hhd hlast hdrop
      by_cases hcanon : h = ("**1.4 Findings**".toList)
      · rw [if_neg (by simp [hcanon])]
        exact pyStartsWith_ne_nil (by decide) (hcanon ▸ hstrip)
      · rw [if_pos hcanon]
        rw [pyReplaceFirst_of_startsWith hstrip]
        exact pyStartsWith_ne_nil (by decide) (pyStartsWith_append _ _)
  | none =>
    cases hb : earliestHeader text backgroundHeaders with
    | some jb =>
      obtain ⟨j, bhdr⟩ := jb
      obtain ⟨hbfind, hbmem⟩ := earliestHeader_spec hb
      obtain ⟨hbhd, hblast⟩ := backgroundHeaderFacts bhdr hbmem
      have hbdrop : pyStartsWith bhdr (text.drop j) = true :=
        pyFind_startsWith bhdr text j hbfind
      have hbstrip : pyStrip (text.drop j) ≠ [] :=
        pyStrip_ne_nil_of_startsWith hbhd hblast hbdrop
      right
      dsimp only
      exact ite_ne_nil hne hbstrip
    | none =>
      right
      dsimp only
      exact ite_ne_nil hne hne

theorem chunkAux_spec {α : Type} (m : Nat) (hm : 1 ≤ m) :
    ∀ fuel (l : List α), l.length ≤ fuel →
      (chunkAux m fuel l).flatten = l ∧
      (∀ b ∈ chunkAux m fuel l, 1 ≤ b.length ∧ b.length ≤ m) ∧
      (∀ b ∈ (chunkAux m fuel l).dropLast, b.length = m) := by
  intro fuel
  induction fuel with
  | zero =>
    intro l hl
    have : l = [] := List.eq_nil_of_length_eq_zero (Nat.le_zero.mp hl)
    subst this
    simp [chunkAux]
  | succ fuel ih =>
    intro l hl
    match l with
    | [] => simp [chunkAux]
    | x :: xs =>
      have hlen : ((x :: xs).drop m).length ≤ fuel := by
        have : ((x :: xs).drop m).length = (x :: xs).length - m := by
          simp [List.length_drop]
        omega
      obtain ⟨ihjoin, ihmem, ihlast⟩ := ih ((x :: xs).drop m) hlen
      refine ⟨?_, ?_, ?_⟩
      · simp only [chunkAux, List.flatten]
        rw [ihjoin, List.take_append_drop]
      · intro b hb
        simp only [chunkAux, List.mem_cons] at hb
        rcases hb with hb | hb
        · subst hb
          constructor
          · have : 0 < (x :: xs).length := by simp
            have := List.length_take m (x :: xs)
            simp only [this]
            omega
          · have := List.length_take m (x :: xs)
            simp only [this]
            omega
        · exact ihmem b hb
      · intro b hb
        by_cases hrest : chunkAux m fuel ((x :: xs).drop m) = []
        · simp only [chunkAux, hrest, List.dropLast_single] at hb
          exact absurd hb (List.not_mem_nil b)
        · have hcons : ((x :: xs).take m :: chunkAux m fuel ((x :: xs).drop m)).dropLast
              = (x :: xs).take m :: (chunkAux m fuel ((x :: xs).drop m)).dropLast := by
            rw [List.dropLast_cons_of_ne_nil hrest]
          simp only [chunkAux, hcons, List.mem_cons] at hb
          rcases hb with hb | hb
          · subst hb
            -- the tail is non-empty, so at least m+1 elements remain: take m has length m
            have hdrop : (x :: xs).drop m ≠ [] := by
              intro hnil
              rw [chunkAux.eq_def] at hrest
              simp [hnil] at hrest
            have hmlt : m < (x :: xs).length := by
              by_contra hge
              push_neg at hge
              exact hdrop (List.drop_of_length_le hge)
            have := List.length_take m (x :: xs)
            simp only [this]
            omega
          · exact ihlast b hb

/-- C3: for every document list and `max_batch_size ≥ 1`, the batches are
contiguous slices whose concatenation is the original list (no loss, no
overlap, original order), every batch has length between 1 and
`max_batch_size`, every batch except possibly the last has length exactly
`max_batch_size`, and an empty document list yields an empty batch list. -/
theorem c3_batching_partitions {α : Type} (D : List α) (m : Nat) (hm : 1 ≤ m) :
    (process_documents_in_batches D m).flatten = D ∧
    (∀ b ∈ process_documents_in_batches D m, 1 ≤ b.length ∧ b.length ≤ m) ∧
    (∀ b ∈ (process_documents_in_batches D m).dropLast, b.length = m) ∧
    process_documents_in_batches ([] : List α) m = [] := by
  obtain ⟨h1, h2, h3⟩ := chunkAux_spec m hm D.length D (Nat.le_refl _)
  exact ⟨h1, h2, h3, rfl⟩

/-- Witness for C3 at a concrete input: seven documents with batch size 3
split as 3 + 3 + 1. -/
theorem c3_batching_partitions_witness :
    process_documents_in_batches [0, 1, 2, 3, 4, 5, 6] 3 = [[0, 1, 2], [3, 4, 5], [6]] ∧
    ((process_documents_in_batches [0, 1, 2, 3, 4, 5, 6] 3).flatten = [0, 1, 2, 3, 4, 5, 6] ∧
     (∀ b ∈ process_documents_in_batches [0, 1, 2, 3, 4, 5, 6] 3, 1 ≤ b.length ∧ b.length ≤ 3) ∧
     (∀ b ∈ (process_documents_in_batches [0, 1, 2, 3, 4, 5, 6] 3).dropLast, b.length = 3) ∧
     process_documents_in_batches ([] : List Nat) 3 = []) :=
  ⟨by decide, c3_batching_partitions [0, 1, 2, 3, 4, 5, 6] 3 (by decide)⟩

/-- C1 counterexample: the claim's bound of `max_retries + 1` model-call
attempts fails for `InferenceService.query_with_batch`: with `max_retries =
0`, a first attempt failing with the dict-format error triggers the
format-fix path, which invokes `predict` a second time, for 2 > 0 + 1 total
`generate_content` calls. -/
theorem c1_retry_bound_counterexample :
    (serviceQueryCall (fun _ => .raise dictFormatErr)
        (fun _ => .resp none ("ok".toList) []) 0 5).2 = 2 ∧
    ¬((serviceQueryCall (fun _ => .raise dictFormatErr)
        (fun _ => .resp none ("ok".toList) []) 0 5).2 ≤ 0 + 1) :=
  ⟨by decide, by decide⟩

/-- C1 (amended): `GeminiModel.predict` and `GeminiHandler.query_with_batch`
always perform at most `max_retries + 1` model calls;
`InferenceService.query_with_batch` performs at most `2 * (max_retries + 1)`
(its dict-format fix path re-invokes `predict` once).  If every attempt
raises a rate-limit-class error, all three return exactly the terminal
`"Error: Rate limit exceeded after maximum retries."` outcome after exactly
`max_retries + 1` calls, sleeping the extracted/backoff delay between
attempts. -/
theorem c1_retry_bound_amended :
    (∀ (oracle : Nat → GenOutcome) (maxRetries baseRetryDelay : Nat),
       (predict oracle maxRetries baseRetryDelay).2.1 ≤ maxRetries + 1) ∧
    (∀ (oracle : Nat → GenOutcome) (maxRetries baseRetryDelay : Nat),
       (handlerQueryRetryLoop oracle maxRetries baseRetryDelay).2.1 ≤ maxRetries + 1) ∧
    (∀ (o1 o2 : Nat → GenOutcome) (maxRetries baseRetryDelay : Nat),
       (serviceQueryCall o1 o2 maxRetries baseRetryDelay).2 ≤ 2 * (maxRetries + 1)) ∧
    (∀ (msgs : Nat → List Char) (maxRetries baseRetryDelay : Nat),
       (∀ n, rateLimitClass (msgs n) = true) →
       predict (fun n => .raise (msgs n)) maxRetries baseRetryDelay =
         (.error (.rateLimit ("Rate limit exceeded after maximum retries.".toList)),
          maxRetries + 1,
          (List.range (maxRetries + 1)).map fun n =>
            extract_retry_delay (msgs n) (baseRetryDelay * 2 ^ n)) ∧
       handlerQueryRetryLoop (fun n => .raise (msgs n)) maxRetries baseRetryDelay =
         (.ok ("Error: Rate limit exceeded after maximum retries.".toList),
          maxRetries + 1,
          (List.range (maxRetries + 1)).map fun n =>
            extract_retry_delay (msgs n) (baseRetryDelay * 2 ^ n)) ∧
       ∀ o2, serviceQueryCall (fun n => .raise (msgs n)) o2 maxRetries baseRetryDelay =
         ("Error: Rate limit exceeded after maximum retries.".toList, maxRetries + 1)) := by
  refine ⟨?_, ?_, ?_, ?_⟩
  · intro o maxR b
    exact predictAux_calls_le o b (maxR + 1) 0
  · intro o maxR b
    exact handlerQueryAux_calls_le o b (maxR + 1) 0
  · exact serviceQueryCall_calls_le
  · intro msgs maxR b hrate
    refine ⟨?_, ?_, ?_⟩
    · rw [List.range_eq_range']
      exact predictAux_all_rate msgs b hrate (maxR + 1) 0
    · rw [List.range_eq_range']
      exact handlerQueryAux_all_rate msgs b hrate (maxR + 1) 0
    · intro o2
      exact serviceQueryCall_all_rate msgs o2 maxR b hrate

/-- Witness for C1 at a concrete always-429 mock model with `max_retries = 2`:
exactly three calls, the terminal rate-limit error, exponential delays. -/
theorem c1_retry_bound_amended_witness :
    predict (fun _ => .raise ("429".toList)) 2 5 =
      (.error (.rateLimit ("Rate limit exceeded after maximum retries.".toList)), 3,
       [5, 10, 20]) := by
  have h := (c1_retry_bound_amended.2.2.2 (fun _ => ("429".toList)) 2 5 (fun _ => show rateLimitClass ("429".toList) = true by decide)).1
  exact h.trans (by decide)

/-- C2 counterexample: with the non-empty table `{"foo": "bar"}`, section
`"zzz"` and case type `"t"`, the `InferenceService` copy of prompt
resolution fails with an error marker instead of the synthesized default —
resolution does not "never fail". -/
theorem c2_prompt_resolution_counterexample :
    service_query_prompt ("zzz".toList) ("t".toList) [(("foo".toList), ("bar".toList))] =
      .error ("Error: Not enough information is provided. No system prompt found for section 'zzz'.".toList) ∧
    [(("foo".toList), ("bar".toList))] ≠ ([] : List (List Char × List Char)) :=
  ⟨by decide, by decide⟩

/-- C2 (amended): prompt resolution in `GeminiHandler.query_with_batch`
always terminates with a non-empty prompt (case-specific key, generic key,
fuzzy match, underscore/space-swapped variants, then the synthesized default
`"Analyze the provided documents and extract information for the
'{section}' section of the report."`); the `InferenceService` copy has no
synthesized default and returns an `"Error: Not enough information is
provided. ..."` marker when every tier misses, even on a non-empty table. -/
theorem c2_prompt_resolution_amended :
    (∀ (sectionName caseType : List Char) (table : List (List Char × List Char)),
       handler_query_prompt sectionName caseType table ≠ []) ∧
    handler_query_prompt ("zzz".toList) ("t".toList) [(("foo".toList), ("bar".toList))] =
      ("Analyze the provided documents and extract information for the 'zzz' section of the report.".toList) ∧
    service_query_prompt ("zzz".toList) ("t".toList) [(("foo".toList), ("bar".toList))] =
      .error ("Error: Not enough information is provided. No system prompt found for section 'zzz'.".toList) :=
  ⟨handler_query_prompt_ne_nil, by decide, by decide⟩

/-- C4 counterexample: the dict-format error is not rate-limit-class, yet
with `max_retries = 1` the handler's batch-query loop performs 2 model-call
attempts on it instead of failing immediately. -/
theorem c4_nonrate_no_retry_counterexample :
    rateLimitClass dictFormatErr = false ∧
    (handlerQueryRetryLoop (fun _ => .raise dictFormatErr) 1 5).2.1 = 2 :=
  ⟨by decide, by decide⟩

/-- C4 (amended): a model-call failure that is neither rate-limit-class nor
the dict-format error (`"Unable to determine the intended type of the
`dict`"`) is terminal after exactly one call: `GeminiModel.predict` raises
`APIError` immediately; the handler loop raises its `RuntimeError`; a
content-safety block is a terminal per-batch `"Error: ..."` string; and the
service-level query surfaces the `APIError` as a per-batch
`"Error: ..."` string.  The dict-format error, by contrast, is retried. -/
theorem c4_nonrate_no_retry_amended :
    (∀ (oracle : Nat → GenOutcome) (maxRetries baseRetryDelay : Nat) (m : List Char),
       attemptOutcome (oracle 0) = .error m → rateLimitClass m = false →
       predict oracle maxRetries baseRetryDelay =
         (.error (.api (("Gemini API error: ".toList) ++ m)), 1, [])) ∧
    (∀ (oracle : Nat → GenOutcome) (maxRetries baseRetryDelay : Nat) (m : List Char),
       oracle 0 = .raise m → rateLimitClass m = false →
       pyContains m dictFormatErr = false →
       handlerQueryRetryLoop oracle maxRetries baseRetryDelay =
         (.error (("Gemini query failed: ".toList) ++ m), 1, [])) ∧
    (∀ (oracle : Nat → GenOutcome) (maxRetries baseRetryDelay : Nat) (br t fin : List Char),
       oracle 0 = .resp (some br) t fin →
       handlerQueryRetryLoop oracle maxRetries baseRetryDelay =
         (.ok (("Error: Content generation blocked (".toList) ++ br ++ (")".toList)), 1, [])) ∧
    (∀ (o1 o2 : Nat → GenOutcome) (maxRetries baseRetryDelay : Nat) (m : List Char),
       attemptOutcome (o1 0) = .error m → rateLimitClass m = false →
       pyContains (("Gemini API error: ".toList) ++ m) dictFormatErr = false →
       serviceQueryCall o1 o2 maxRetries baseRetryDelay =
         (("Error: Gemini API error: ".toList) ++ m, 1)) := by
  refine ⟨predict_nonrate_first, handlerQuery_nonrate_first, handlerQuery_blocked_first, ?_⟩
  intro o1 o2 maxR b m hA hr hd
  unfold serviceQueryCall
  rw [predict_nonrate_first o1 maxR b m hA hr]
  dsimp only
  rw [hd]
  simp only [Bool.false_eq_true, if_false]
  have hsplit : ("Error: ".toList : List Char) ++ ("Gemini API error: ".toList) =
      ("Error: Gemini API error: ".toList) := by decide
  rw [← List.append_assoc, hsplit]

/-- Witness for C4 at a concrete non-retriable failure. -/
theorem c4_nonrate_no_retry_amended_witness :
    predict (fun _ => .raise ("boom".toList)) 3 5 =
      (.error (.api (("Gemini API error: ".toList) ++ ("boom".toList))), 1, []) ∧
    handlerQueryRetryLoop (fun _ => .raise ("boom".toList)) 3 5 =
      (.error (("Gemini query failed: ".toList) ++ ("boom".toList)), 1, []) :=
  ⟨c4_nonrate_no_retry_amended.1 (fun _ => .raise ("boom".toList)) 3 5 ("boom".toList)
      (by decide) (by decide),
   c4_nonrate_no_retry_amended.2.1 (fun _ => .raise ("boom".toList)) 3 5 ("boom".toList)
      rfl (by decide) (by decide)⟩

/-- C5 counterexample: a rate-limit-class error (`"quota"`) that contains a
server-suggested `retry_delay { seconds: 30 }` but no `"429"` substring is
given the exponential default delay 5, not `30 + 2`: the extraction only
applies to errors containing `"429"`. -/
theorem c5_delay_extraction_counterexample :
    rateLimitClass ("quota exceeded retry_delay \x7b seconds: 30 \x7d".toList) = true ∧
    pyContains ("quota exceeded retry_delay \x7b seconds: 30 \x7d".toList)
      ("retry_delay \x7b seconds: 30 \x7d".toList) = true ∧
    extract_retry_delay ("quota exceeded retry_delay \x7b seconds: 30 \x7d".toList) 5 = 5 ∧
    (predict (fun _ => .raise ("quota exceeded retry_delay \x7b seconds: 30 \x7d".toList))
        0 5).2.2 = [5] :=
  ⟨by decide, by decide, by decide, by decide⟩

/-- C5 (amended): the delay before attempt `n + 1` equals
`extract_retry_delay(error, base_retry_delay * 2^n)`; a message without
`"429"` always gets the default, and a `"429"` message with a parseable
`retry_delay { seconds: N }` section gets `N + 2`. -/
theorem c5_delay_extraction_amended :
    (∀ (msgs : Nat → List Char) (maxRetries baseRetryDelay : Nat),
       (∀ n, rateLimitClass (msgs n) = true) →
       (predict (fun n => .raise (msgs n)) maxRetries baseRetryDelay).2.2 =
         (List.range (maxRetries + 1)).map fun n =>
           extract_retry_delay (msgs n) (baseRetryDelay * 2 ^ n)) ∧
    (∀ (m : List Char) (d : Nat), pyContains m ("429".toList) = false →
       extract_retry_delay m d = d) ∧
    extract_retry_delay ("429 retry_delay \x7b seconds: 30 \x7d".toList) (5 * 2 ^ 1) =
      30 + 2 := by
  refine ⟨?_, ?_, by decide⟩
  · intro msgs maxR b hrate
    rw [List.range_eq_range']
    unfold predict
    rw [predictAux_all_rate msgs b hrate (maxR + 1) 0]
  · intro m d h
    unfold extract_retry_delay
    rw [h]
    simp

/-- Witness for C5: the delay wiring at a concrete always-quota mock. -/
theorem c5_delay_extraction_amended_witness :
    (predict (fun _ => .raise ("quota".toList)) 2 7).2.2 =
      (List.range 3).map fun n => extract_retry_delay ("quota".toList) (7 * 2 ^ n) :=
  c5_delay_extraction_amended.1 (fun _ => ("quota".toList)) 2 7 (fun _ => show rateLimitClass ("quota".toList) = true by decide)

/-- C6 counterexample: when the handler's final-synthesis loop exhausts its
retries under rate limiting it returns `"Error: Could not create unified
analysis due to repeated rate limit or other errors."`, not the claimed
sentinel `"Error: Could not create unified analysis due to persistent API
rate limits."`. -/
theorem c6_synthesis_sentinel_counterexample :
    handlerSynthesisLoop (fun _ => .raise ("429".toList)) 0 5 =
      (.ok ("Error: Could not create unified analysis due to repeated rate limit or other errors.".toList),
       1, [5]) ∧
    ("Error: Could not create unified analysis due to repeated rate limit or other errors.".toList : List Char) ≠
      ("Error: Could not create unified analysis due to persistent API rate limits.".toList) :=
  ⟨by decide, by decide⟩

/-- C6 (amended): `InferenceService.create_unified_analysis` returns exactly
the sentinel on terminal rate limiting and `"Error: {message}"` on any other
`APIError`; `GeminiHandler.create_unified_analysis` instead returns
`"Error: Could not create unified analysis due to repeated rate limit or
other errors."` on exhaustion and re-raises non-rate-limit synthesis
exceptions rather than returning an error string. -/
theorem c6_synthesis_sentinel_amended :
    (∀ (msgs : Nat → List Char) (maxRetries baseRetryDelay : Nat),
       (∀ n, rateLimitClass (msgs n) = true) →
       serviceCreateUnifiedTail (fun n => .raise (msgs n)) maxRetries baseRetryDelay =
         "Error: Could not create unified analysis due to persistent API rate limits.".toList) ∧
    (∀ (oracle : Nat → GenOutcome) (maxRetries baseRetryDelay : Nat) (m : List Char),
       (predict oracle maxRetries baseRetryDelay).1 = .error (.api m) →
       serviceCreateUnifiedTail oracle maxRetries baseRetryDelay = ("Error: ".toList) ++ m) ∧
    (∀ (msgs : Nat → List Char) (maxRetries baseRetryDelay : Nat),
       (∀ n, handlerSynthRateClass (msgs n) = true) →
       (handlerSynthesisLoop (fun n => .raise (msgs n)) maxRetries baseRetryDelay).1 =
         .ok ("Error: Could not create unified analysis due to repeated rate limit or other errors.".toList)) ∧
    (∀ (oracle : Nat → GenOutcome) (maxRetries baseRetryDelay : Nat) (m : List Char),
       oracle 0 = .raise m → handlerSynthRateClass m = false →
       handlerSynthesisLoop oracle maxRetries baseRetryDelay = (.error m, 1, [])) := by
  refine ⟨serviceTail_all_rate, serviceTail_api, ?_, handlerSynthesis_nonrate_first⟩
  intro msgs maxR b hrate
  unfold handlerSynthesisLoop
  rw [handlerSynthesisAux_all_rate msgs b hrate (maxR + 1) 0]

/-- Witness for C6 at a concrete always-429 synthesis mock. -/
theorem c6_synthesis_sentinel_amended_witness :
    serviceCreateUnifiedTail (fun _ => .raise ("429".toList)) 1 5 =
      "Error: Could not create unified analysis due to persistent API rate limits.".toList :=
  c6_synthesis_sentinel_amended.1 (fun _ => ("429".toList)) 1 5 (fun _ => show rateLimitClass ("429".toList) = true by decide)

/-- C7 counterexample: `parse_text_to_json` (the `text_parser.py` copy of
the splitter) does not return `"just some text"` verbatim: it prepends the
synthesized `"**Background Information**\n"` header. -/
theorem c7_no_header_fallback_counterexample :
    (parse_text_to_json ("just some text".toList)).2 ≠ ("just some text".toList) ∧
    parse_text_to_json ("just some text".toList) =
      ([], "**Background Information**\njust some text".toList) :=
  ⟨by decide, by decide⟩

/-- C7 (amended): whenever no findings-header variant and no
background-header variant occurs in the narrative,
`extract_findings_and_background` returns `("", text)` with the background
verbatim (the `"finding"`-keyword fallback claimed by the spec does not
exist in this function); the `text_parser.parse_text_to_json` copy instead
strips the text and prepends the synthesized
`"**Background Information**\n"` header. -/
theorem c7_no_header_fallback_amended :
    (∀ text : List Char,
       (∀ h ∈ findingsHeaders, pyFind h text = none) →
       (∀ h ∈ backgroundHeaders, pyFind h text = none) →
       extract_findings_and_background text = ([], text)) ∧
    extract_findings_and_background ("just some text".toList) =
      ([], "just some text".toList) ∧
    parse_text_to_json ("just some text".toList) =
      ([], "**Background Information**\njust some text".toList) :=
  ⟨extract_no_headers, by decide, by decide⟩

/-- Witness for C7 on a concrete header-free narrative. -/
theorem c7_no_header_fallback_amended_witness :
    extract_findings_and_background ("plain narrative".toList) =
      ([], "plain narrative".toList) :=
  c7_no_header_fallback_amended.1 ("plain narrative".toList) (by decide) (by decide)

/-- C8 counterexample: when the found header occurs twice, only the first
occurrence is rewritten, so the returned findings text still contains the
original non-canonical header `"**FINDINGS**"`. -/
theorem c8_header_normalization_counterexample :
    (extract_findings_and_background ("**FINDINGS**\nA\n**FINDINGS**\nB".toList)).1 =
      "**1.4 Findings**\nA\n**FINDINGS**\nB".toList ∧
    pyContains (extract_findings_and_background ("**FINDINGS**\nA\n**FINDINGS**\nB".toList)).1
      ("**FINDINGS**".toList) = true :=
  ⟨by decide, by decide⟩

/-- C8 (amended): whenever a findings-header variant is found and it starts
at least its own length before any background header (or none is present),
the returned findings text begins with the canonical `"**1.4 Findings**"`
(the found header's first occurrence is rewritten); occurrences of the
original header after the first are not removed.  The claim's concrete
instance holds: the single `"**FINDINGS**"` is rewritten and no longer
occurs. -/
theorem c8_header_normalization_amended :
    (∀ (text : List Char) (i : Nat) (h : List Char),
       earliestHeader text findingsHeaders = some (i, h) →
       (earliestHeader text backgroundHeaders = none ∨
        ∃ j hb, earliestHeader text backgroundHeaders = some (j, hb) ∧ i + h.length ≤ j) →
       pyStartsWith ("**1.4 Findings**".toList)
         (extract_findings_and_background text).1 = true) ∧
    extract_findings_and_background ("**FINDINGS**\nX\n**2.0 BACKGROUND INFORMATION**\nY".toList) =
      ("**1.4 Findings**\nX".toList, "**2.0 BACKGROUND INFORMATION**\nY".toList) ∧
    pyContains ("**1.4 Findings**\nX".toList) ("**1.4 Findings**".toList) = true ∧
    pyContains ("**1.4 Findings**\nX".toList) ("**FINDINGS**".toList) = false :=
  ⟨extract_canonical_header, by decide, by decide, by decide⟩

/-- Witness for C8 on a concrete narrative with a findings header only. -/
theorem c8_header_normalization_amended_witness :
    pyStartsWith ("**1.4 Findings**".toList)
      (extract_findings_and_background ("**FINDINGS**\nX".toList)).1 = true :=
  c8_header_normalization_amended.1 ("**FINDINGS**\nX".toList) 0 ("**FINDINGS**".toList)
    (by decide) (.inl (by decide))

/-- C9: `parse_background_response` splits at the first occurrence of the
literal `"**Background Information**"` marker — stripped text strictly
before it becomes the findings component, stripped text from the marker
(inclusive) becomes the background component — and falls back to exactly
`extract_findings_and_background` when the marker is absent. -/
theorem c9_background_marker_split :
    (∀ (text : List Char) (i : Nat),
       pyFind ("**Background Information**".toList) text = some i →
       parse_background_response text = (pyStrip (text.take i), pyStrip (text.drop i))) ∧
    (∀ text : List Char,
       pyFind ("**Background Information**".toList) text = none →
       parse_background_response text = extract_findings_and_background text) ∧
    parse_background_response ("pre-text\n**Background Information**\npost-text".toList) =
      ("pre-text".toList, "**Background Information**\npost-text".toList) := by
  refine ⟨?_, ?_, by decide⟩
  · intro text i h
    unfold parse_background_response
    rw [h]
  · intro text h
    unfold parse_background_response
    rw [h]

/-- Witness for C9 at a concrete input with the marker at index 2. -/
theorem c9_background_marker_split_witness :
    parse_background_response ("a\n**Background Information**\nb".toList) =
      (pyStrip (("a\n**Background Information**\nb".toList).take 2),
       pyStrip (("a\n**Background Information**\nb".toList).drop 2)) :=
  c9_background_marker_split.1 ("a\n**Background Information**\nb".toList) 2 (by decide)

/-- C10: for every non-empty narrative, `extract_findings_and_background`
returns a pair of strings of which at least one component is non-empty — a
non-empty input is never collapsed to two empty outputs. -/
theorem c10_nonempty_preserved (text : List Char) (hne : text ≠ []) :
    (extract_findings_and_background text).1 ≠ [] ∨
    (extract_findings_and_background text).2 ≠ [] :=
  c10_core text hne

/-- Witness for C10 at a concrete one-character narrative. -/
theorem c10_nonempty_preserved_witness :
    ("x".toList : List Char) ≠ [] ∧
    ((extract_findings_and_background ("x".toList)).1 ≠ [] ∨
     (extract_findings_and_background ("x".toList)).2 ≠ []) :=
  ⟨by decide, c10_nonempty_preserved ("x".toList) (by decide)⟩

end Forensic
